import Mathlib

/-!
Verification of the issue-detection and classification engine in
scripts/code_review.py: the Issue model, the ReviewResult aggregator,
the pattern / syntax-tree / descriptor detectors, the external tool
adapter and the quality-tier assessor, shallowly embedded in Lean.
Coverage percentages are modelled as rationals; subprocess execution is
modelled by an explicit outcome value handed to each runner.
-/

/-- Severity levels of the script (class Severity). -/
inductive Severity where
  | blocking
  | warning
  | nitpick
deriving DecidableEq, Repr

/-- Issue categories of the script (class Category). -/
inductive Category where
  | security
  | quality
  | testing
  | documentation
  | async
  | pattern
deriving DecidableEq, Repr

/-- A code review issue (dataclass Issue). -/
structure Issue where
  severity : Severity
  category : Category
  file : String
  line : Option Nat
  title : String
  description : String
  suggestion : Option String := none
  code_example : Option String := none
  reference : Option String := none
deriving DecidableEq, Repr

/-- Aggregated results of one review run (dataclass ReviewResult), with the
field defaults of the dataclass. -/
structure ReviewResult where
  blocking : List Issue := []
  warnings : List Issue := []
  nitpicks : List Issue := []
  positives : List String := []
  coverage_percent : Rat := 0
  quality_tier : String := "Unknown"
  files_reviewed : Nat := 0
deriving DecidableEq, Repr

/-- Method ReviewResult.add_issue: append the issue to the bucket selected by
its severity (if blocking, elif warning, else nitpick). -/
def ReviewResult.add_issue (r : ReviewResult) (issue : Issue) : ReviewResult :=
  if issue.severity = Severity.blocking then
    { r with blocking := r.blocking ++ [issue] }
  else if issue.severity = Severity.warning then
    { r with warnings := r.warnings ++ [issue] }
  else
    { r with nitpicks := r.nitpicks ++ [issue] }

/-- Method ReviewResult.has_blocking_issues: length of the blocking bucket is
positive. -/
def ReviewResult.has_blocking_issues (r : ReviewResult) : Bool :=
  decide (0 < r.blocking.length)

/-- Method ReviewResult.total_issues. -/
def ReviewResult.total_issues (r : ReviewResult) : Nat :=
  r.blocking.length + r.warnings.length + r.nitpicks.length

/-- Method _assess_quality_tier of the script, as a function of the tests
directory existing (read from the filesystem by the script) and the final
aggregated state. Each branch overwrites quality_tier. -/
def assessQualityTier (hasTests : Bool) (r : ReviewResult) : ReviewResult :=
  if r.has_blocking_issues then
    { r with quality_tier := "Below Bronze" }
  else if !hasTests || decide (r.coverage_percent < 60) then
    { r with quality_tier := "Bronze (needs testing)" }
  else if decide (80 ≤ r.coverage_percent) && (r.warnings.length == 0) then
    { r with quality_tier := "Gold" }
  else if decide (60 ≤ r.coverage_percent) then
    { r with quality_tier := "Silver" }
  else
    { r with quality_tier := "Bronze" }

/-- Decision table for the quality tier exactly as the specification words
it: a pure function of has_blocking, has_tests, coverage_percent and
warning_count, evaluated first match wins. Written from the specification
for comparison with the embedding of the code above. -/
def tierSpec (has_blocking has_tests : Bool) (coverage_percent : Rat)
    (warning_count : Nat) : String :=
  if has_blocking then "Below Bronze"
  else if !has_tests || decide (coverage_percent < 60) then "Bronze (needs testing)"
  else if decide (80 ≤ coverage_percent) && (warning_count == 0) then "Gold"
  else if decide (60 ≤ coverage_percent) then "Silver"
  else "Bronze"

/-- A sample warning issue used to instantiate concrete review states. -/
def sampleWarningIssue : Issue :=
  { severity := Severity.warning, category := Category.quality, file := "a.py",
    line := some 1, title := "Missing Return Type Hint",
    description := "Function f has no return type hint" }

/-- A sample blocking issue used to instantiate concrete review states. -/
def sampleBlockingIssue : Issue :=
  { severity := Severity.blocking, category := Category.security, file := "a.py",
    line := some 1, title := "Hardcoded Credential",
    description := "Hardcoded API key, password, or secret detected" }

/-- The double-quote character, written by code point. -/
def dquoteChar : Char := Char.ofNat 34

/-- The single-quote character, written by code point. -/
def squoteChar : Char := Char.ofNat 39

/-- Single quote as a one-character string, used where the Python messages
interpolate a value between single quotes. -/
def sglq : String := String.singleton squoteChar

/-- Whitespace characters of the regex class backslash-s and of str.strip
(ASCII range). -/
def isPySpace (c : Char) : Bool :=
  c = ' ' || c = '\t' || c = '\n' || c = '\r' || c = Char.ofNat 11 || c = Char.ofNat 12

/-- Word characters of the regex class backslash-w (ASCII range). -/
def isWordChar (c : Char) : Bool := c.isAlphanum || c = '_'

/-- Characters of the regex class holding word characters and the dash. -/
def isWordDash (c : Char) : Bool := isWordChar c || c = '-'

/-- Quote characters of the regex class holding the two quote kinds. -/
def isQuoteChar (c : Char) : Bool := c = dquoteChar || c = squoteChar

/-- Substring test on character lists, as the Python in operator on
strings: the needle occurs contiguously somewhere in the haystack. -/
def containsSub (needle : List Char) : List Char → Bool
  | [] => needle.isEmpty
  | c :: t => needle.isPrefixOf (c :: t) || containsSub needle t

/-- Keyword alternatives of the hardcoded_key regex, lowercased: api key
with an optional underscore or dash between the two words, password,
secret, token. -/
def credKeywords : List (List Char) :=
  ["api_key".toList, "api-key".toList, "apikey".toList,
   "password".toList, "secret".toList, "token".toList]

/-- Tail of the hardcoded_key regex after the keyword: optional whitespace,
an equals sign, optional whitespace, a quote, one or more word or dash
characters, and a closing quote of either kind. -/
def matchCredTail (cs : List Char) : Bool :=
  match cs.dropWhile isPySpace with
  | '=' :: rest =>
    match rest.dropWhile isPySpace with
    | q :: rest2 =>
      isQuoteChar q &&
        (!(rest2.takeWhile isWordDash).isEmpty &&
          (match rest2.dropWhile isWordDash with
           | c :: _ => isQuoteChar c
           | [] => false))
    | [] => false
  | _ => false

/-- Match of the full hardcoded_key pattern at the head of the character
list, case-insensitive on the keyword as re.IGNORECASE makes it. -/
def matchCredAt (cs : List Char) : Bool :=
  credKeywords.any fun kw =>
    kw.isPrefixOf (cs.map Char.toLower) && matchCredTail (cs.drop kw.length)

/-- Search of the hardcoded_key pattern anywhere in a line, as re.search. -/
def searchCred : List Char → Bool
  | [] => false
  | c :: t => matchCredAt (c :: t) || searchCred t

/-- The hardcoded_key security pattern applied to one line of text. -/
def hardcodedKeyMatch (line : String) : Bool := searchCred line.toList

/-- Python membership test of the word test in the lowercased file path. -/
def testInPath (file : String) : Bool :=
  containsSub "test".toList (file.toList.map Char.toLower)

/-- Python line.strip().startswith of the comment marker. -/
def isCommentLine (line : String) : Bool :=
  match line.toList.dropWhile isPySpace with
  | c :: _ => c = '#'
  | [] => false

/-- The blocking security issue _check_security_issues emits for a
hardcoded credential found on the given line number. -/
def credIssue (file : String) (lineno : Nat) : Issue :=
  { severity := Severity.blocking, category := Category.security, file := file,
    line := some lineno, title := "Hardcoded Credential",
    description := "Hardcoded API key, password, or secret detected",
    suggestion := some "Store credentials in config entry data",
    code_example := some "api_key = entry.data[CONF_API_KEY]",
    reference := some "https://developers.home-assistant.io/docs/config_entries_config_flow_handler" }

/-- The hardcoded-credential loop of _check_security_issues from line
counter i on; Python enumerate starts the counter at 1, and the issue is
emitted only when the line matches, the path holds no test marker and the
stripped line does not start with the comment marker. -/
def credIssuesAux (file : String) : Nat → List String → List Issue
  | _, [] => []
  | i, line :: rest =>
    (if hardcodedKeyMatch line && !testInPath file && !isCommentLine line
     then [credIssue file i]
     else []) ++ credIssuesAux file (i + 1) rest

/-- Issues emitted by the hardcoded-credential rule of
_check_security_issues over the lines of an artifact. -/
def checkHardcodedCredentials (file : String) (lines : List String) : List Issue :=
  credIssuesAux file 1 lines

/-- Python startswith test against the one-character underscore prefix,
used for the private-naming convention on function names. -/
def startsWithUnderscore (nm : String) : Bool :=
  match nm.toList with
  | c :: _ => c = '_'
  | [] => false

/-- Minimal model of a Python expression as _check_ast_patterns inspects
it: an ast.Name node with its identifier, or any other expression. -/
inductive PyExpr where
  | name (id : String)
  | otherExpr
deriving DecidableEq, Repr

/-- Nodes of the parsed tree in the order ast.walk visits them, restricted
to the node kinds _check_ast_patterns dispatches on. -/
inductive PyNode where
  | functionDef (nm : String) (returns : Option PyExpr) (lineno : Nat)
  | exceptHandler (typ : Option PyExpr) (lineno : Nat)
  | otherNode
deriving DecidableEq, Repr

/-- A Python SyntaxError as _review_python_file catches it: the reported
line number and message. -/
structure SyntaxErr where
  lineno : Option Nat
  msg : String
deriving DecidableEq, Repr

/-- Guard of the broad-exception check: the handler type is absent, or it
is a Name node whose identifier is the generic Exception type. -/
def broadExceptGuard : Option PyExpr → Bool
  | none => true
  | some (PyExpr.name id) => id == "Exception"
  | some PyExpr.otherExpr => false

/-- Issues _check_ast_patterns emits for one visited node: a warning for a
public function without a return annotation, and a warning for an except
handler catching nothing specific or the generic Exception type. -/
def astNodeIssues (file : String) : PyNode → List Issue
  | PyNode.functionDef nm returns lineno =>
    if returns.isNone && !(startsWithUnderscore nm) then
      [{ severity := Severity.warning, category := Category.quality, file := file,
         line := some lineno, title := "Missing Return Type Hint",
         description := "Function " ++ sglq ++ nm ++ sglq ++ " has no return type hint",
         suggestion := some "Add type hints to all public functions" }]
    else []
  | PyNode.exceptHandler typ lineno =>
    if broadExceptGuard typ then
      [{ severity := Severity.warning, category := Category.quality, file := file,
         line := some lineno, title := "Broad Exception Catching",
         description := "Catching generic Exception or all exceptions",
         suggestion := some "Catch specific exceptions when possible" }]
    else []
  | PyNode.otherNode => []

/-- Single pass of _check_ast_patterns over the walked node list. -/
def checkAstPatterns (file : String) (nodes : List PyNode) : List Issue :=
  nodes.flatMap (astNodeIssues file)

/-- The blocking issue _review_python_file emits when ast.parse raises a
SyntaxError. -/
def syntaxErrorIssue (file : String) (e : SyntaxErr) : Issue :=
  { severity := Severity.blocking, category := Category.quality, file := file,
    line := e.lineno, title := "Syntax Error",
    description := "Python syntax error: " ++ e.msg }

/-- The try block around ast.parse in _review_python_file: on success the
structural checks run over the tree, on SyntaxError exactly the one
blocking issue is produced and no structural check runs. -/
def astPhase (file : String) (parseResult : Except SyntaxErr (List PyNode)) : List Issue :=
  match parseResult with
  | Except.ok tree => checkAstPatterns file tree
  | Except.error e => [syntaxErrorIssue file e]

/-- Arguments of one subprocess.run invocation; timeoutSeconds is none when
the call site passes no timeout argument. -/
structure RunRequest where
  args : List String
  cwd : String
  timeoutSeconds : Option Rat
deriving DecidableEq, Repr

/-- Outcome of a subprocess.run call made without a timeout: it either
completes with an exit code and captured stdout, or raises
FileNotFoundError because the executable is absent. -/
inductive RunOutcome where
  | completed (exitCode : Int) (stdout : String)
  | notFound
deriving DecidableEq, Repr

/-- The subprocess.run invocation of _run_linter; no timeout argument is
passed there. -/
def linterRequest (rootPath : String) : RunRequest :=
  { args := ["ruff", "check", "custom_components/", "--quiet"],
    cwd := rootPath, timeoutSeconds := none }

/-- The subprocess.run invocation of _run_type_checker; no timeout argument
is passed there. -/
def typeCheckerRequest (rootPath : String) : RunRequest :=
  { args := ["mypy", "custom_components/"], cwd := rootPath, timeoutSeconds := none }

/-- The subprocess.run invocation of _check_test_coverage; no timeout
argument is passed there. -/
def coverageRequest (rootPath : String) : RunRequest :=
  { args := ["pytest", "tests/", "--cov=custom_components", "--cov-report=json",
             "--quiet"],
    cwd := rootPath, timeoutSeconds := none }

/-- Method _run_linter: the updated result paired with the diagnostics the
method prints to stderr. -/
def runLinter (outcome : RunOutcome) (r : ReviewResult) : ReviewResult × List String :=
  match outcome with
  | RunOutcome.notFound => (r, ["Warning: Ruff not found, skipping lint check"])
  | RunOutcome.completed code _ =>
    if code = 0 then
      ({ r with positives := r.positives ++ ["✅ Ruff linter passes with no errors"] }, [])
    else
      (r.add_issue
        { severity := Severity.warning, category := Category.quality,
          file := "multiple", line := none, title := "Linting Errors",
          description := "Ruff linter found issues",
          suggestion := some "Run: ruff check custom_components/ --fix" }, [])

/-- Split of a character list on the newline separator, as the Python split
method on one string: the empty text gives one empty segment. -/
def splitLines : List Char → List (List Char)
  | [] => [[]]
  | c :: t =>
    match splitLines t with
    | [] => [[]]
    | l :: ls => if c = '\n' then [] :: l :: ls else (c :: l) :: ls

/-- Count of stdout lines containing the literal error marker, as
_run_type_checker computes it over stdout split on newlines. -/
def errorCount (stdout : String) : Nat :=
  ((splitLines stdout.toList).filter fun line =>
    containsSub "error:".toList line).length

/-- The synthesized warning issue of _run_type_checker, whose title carries
the error count. -/
def typeCheckIssue (n : Nat) : Issue :=
  { severity := Severity.warning, category := Category.quality, file := "multiple",
    line := none, title := "Type Check Errors (" ++ toString n ++ ")",
    description := "mypy found type checking issues",
    suggestion := some "Run: mypy custom_components/" }

/-- Method _run_type_checker: the updated result paired with the stderr
diagnostics; on non-zero exit the warning is emitted only when at least
one stdout line carries the error marker. -/
def runTypeChecker (outcome : RunOutcome) (r : ReviewResult) : ReviewResult × List String :=
  match outcome with
  | RunOutcome.notFound => (r, ["Warning: mypy not found, skipping type check"])
  | RunOutcome.completed code stdout =>
    if code = 0 then
      ({ r with positives := r.positives ++ ["✅ Type checking passes with no errors"] }, [])
    else if 0 < errorCount stdout then
      (r.add_issue (typeCheckIssue (errorCount stdout)), [])
    else
      (r, [])

/-- Rendering of a percentage with one decimal digit, modelling the Python
format specifier for the coverage values (rounding half up). -/
def pyFormat1 (p : Rat) : String :=
  toString ((⌊p * 10 + 1 / 2⌋ : Int) / 10) ++ "." ++ toString ((⌊p * 10 + 1 / 2⌋ : Int) % 10)

/-- Positive note for coverage at or above 80 percent. -/
def excellentCoverageNote (p : Rat) : String :=
  "✅ Excellent test coverage: " ++ pyFormat1 p ++ "%"

/-- Warning issue for coverage of at least 60 but under 80 percent. -/
def belowTargetIssue (p : Rat) : Issue :=
  { severity := Severity.warning, category := Category.testing, file := "tests/",
    line := none, title := "Test Coverage Below Target",
    description := "Coverage is " ++ pyFormat1 p ++ "%, target is 80%",
    suggestion := some "Add tests for uncovered code paths" }

/-- Blocking issue for coverage under 60 percent. -/
def insufficientCoverageIssue (p : Rat) : Issue :=
  { severity := Severity.blocking, category := Category.testing, file := "tests/",
    line := none, title := "Insufficient Test Coverage",
    description := "Coverage is " ++ pyFormat1 p ++ "%, minimum is 60%",
    suggestion := some "Add comprehensive tests for new functionality" }

/-- Method _check_test_coverage: the pytest invocation outcome and the
percent_covered value of the machine-readable coverage summary (none when
that file is absent) determine the updated result and the stderr
diagnostics; the whole body sits in a try block whose except clause turns
any exception, including an absent pytest executable, into a diagnostic
(the Python message interpolates the exception text). -/
def checkTestCoverage (pytestOutcome : RunOutcome) (coverageFile : Option Rat)
    (r : ReviewResult) : ReviewResult × List String :=
  match pytestOutcome with
  | RunOutcome.notFound =>
    (r, ["Warning: Could not check test coverage: executable not found"])
  | RunOutcome.completed _ _ =>
    match coverageFile with
    | none => (r, [])
    | some p =>
      let r1 := { r with coverage_percent := p }
      if 80 ≤ p then
        ({ r1 with positives := r1.positives ++ [excellentCoverageNote p] }, [])
      else if 60 ≤ p then
        (r1.add_issue (belowTargetIssue p), [])
      else
        (r1.add_issue (insufficientCoverageIssue p), [])

/-- JSON values as json.loads produces them. -/
inductive JsonVal where
  | str (s : String)
  | num (q : Rat)
  | bool (b : Bool)
  | null
  | arr (xs : List JsonVal)
  | obj (fields : List (String × JsonVal))

/-- Lookup of a key in a parsed JSON object, as the Python in and get
operations on the decoded dict (objects are taken without duplicate
keys). -/
def lookupField (m : List (String × JsonVal)) (k : String) : Option JsonVal :=
  (m.find? fun kv => kv.1 == k).map fun kv => kv.2

/-- Python truthiness of a decoded JSON value. -/
def truthy : JsonVal → Bool
  | JsonVal.str s => !(s == "")
  | JsonVal.num q => !(decide (q = 0))
  | JsonVal.bool b => b
  | JsonVal.null => false
  | JsonVal.arr xs => !xs.isEmpty
  | JsonVal.obj fs => !fs.isEmpty

/-- Required manifest fields of _review_manifest, in the order of the
source list. -/
def requiredFields : List String :=
  ["domain", "name", "version", "codeowners", "documentation", "iot_class",
   "integration_type"]

/-- Blocking issue for a required manifest field absent from the document. -/
def missingFieldIssue (file f : String) : Issue :=
  { severity := Severity.blocking, category := Category.quality, file := file,
    line := none, title := "Missing Required Field: " ++ f,
    description := "manifest.json must include " ++ sglq ++ f ++ sglq,
    reference := some "https://developers.home-assistant.io/docs/creating_integration_manifest" }

/-- Warning issue for a config_flow flag that is absent or not truthy. -/
def configFlowIssue (file : String) : Issue :=
  { severity := Severity.warning, category := Category.pattern, file := file,
    line := none, title := "Config Flow Not Enabled",
    description := "New integrations should use config flow",
    suggestion := some ("Set " ++ sglq ++ "config_flow: true" ++ sglq
      ++ " and implement config_flow.py") }

/-- Blocking issue for a manifest that fails to decode, carrying the
decoder error message. -/
def invalidManifestIssue (file msg : String) : Issue :=
  { severity := Severity.blocking, category := Category.quality, file := file,
    line := none, title := "Invalid JSON",
    description := "manifest.json has invalid JSON: " ++ msg }

/-- One step of the required-field loop of _review_manifest. -/
def missingFieldStep (m : List (String × JsonVal)) (file : String)
    (r : ReviewResult) (f : String) : ReviewResult :=
  if (lookupField m f).isNone then r.add_issue (missingFieldIssue file f) else r

/-- Truthiness of manifest.get of config_flow with default False. -/
def configFlowTruthy (m : List (String × JsonVal)) : Bool :=
  match lookupField m "config_flow" with
  | some v => truthy v
  | none => false

/-- Method _review_manifest: on decode failure one blocking issue with the
error message and nothing else; on success the required-field loop, then
the config_flow check. -/
def reviewManifest (file : String) (parsed : Except String (List (String × JsonVal)))
    (r : ReviewResult) : ReviewResult :=
  match parsed with
  | Except.error msg => r.add_issue (invalidManifestIssue file msg)
  | Except.ok m =>
    let r1 := requiredFields.foldl (missingFieldStep m file) r
    if configFlowTruthy m then r1 else r1.add_issue (configFlowIssue file)

/-- A sample parsed manifest missing the version and integration_type
fields and carrying no config_flow flag. -/
def demoManifest : List (String × JsonVal) :=
  [("domain", JsonVal.str "demo"), ("name", JsonVal.str "Demo"),
   ("codeowners", JsonVal.arr []),
   ("documentation", JsonVal.str "https://example.org"),
   ("iot_class", JsonVal.str "local_polling")]

/-- The specification test vector: the word password, an equals sign and a
double-quoted value, built without literal quote characters. -/
def sampleCredLine : String :=
  "password = " ++ String.singleton dquoteChar ++ "abc123" ++ String.singleton dquoteChar

theorem has_blocking_iff (r : ReviewResult) :
    r.has_blocking_issues = true ↔ r.blocking ≠ [] := by
  simp [ReviewResult.has_blocking_issues, List.length_pos]

theorem filter_severity_length (l : List Issue) :
    (l.filter (fun i => decide (i.severity = Severity.blocking))).length
      + (l.filter (fun i => decide (i.severity = Severity.warning))).length
      + (l.filter (fun i => decide (i.severity = Severity.nitpick))).length
      = l.length := by
  induction l with
  | nil => rfl
  | cons i t ih =>
    rcases hs : i.severity with _ | _ | _ <;>
      simp only [List.filter_cons, hs] <;> simp <;> omega

theorem foldl_add_issue_buckets (l : List Issue) (r : ReviewResult) :
    (l.foldl ReviewResult.add_issue r).blocking
        = r.blocking ++ l.filter (fun i => decide (i.severity = Severity.blocking))
    ∧ (l.foldl ReviewResult.add_issue r).warnings
        = r.warnings ++ l.filter (fun i => decide (i.severity = Severity.warning))
    ∧ (l.foldl ReviewResult.add_issue r).nitpicks
        = r.nitpicks ++ l.filter (fun i => decide (i.severity = Severity.nitpick)) := by
  induction l generalizing r with
  | nil => simp
  | cons i t ih =>
    rcases hs : i.severity with _ | _ | _ <;>
      simpa [ReviewResult.add_issue, hs, List.filter_cons] using ih (r.add_issue i)

/-- Claim C5: after any sequence of add_issue calls on a fresh ReviewResult,
the three buckets are exactly the severity-filtered subsequences of the
added issues (so they partition the issues and keep insertion order),
total_issues equals the sum of the bucket sizes, which is the number of
added issues, and has_blocking_issues holds iff the blocking bucket is
non-empty. -/
theorem review_result_bucket_partition (issues : List Issue) :
    ((issues.foldl ReviewResult.add_issue {}).blocking
        = issues.filter (fun i => decide (i.severity = Severity.blocking)))
    ∧ ((issues.foldl ReviewResult.add_issue {}).warnings
        = issues.filter (fun i => decide (i.severity = Severity.warning)))
    ∧ ((issues.foldl ReviewResult.add_issue {}).nitpicks
        = issues.filter (fun i => decide (i.severity = Severity.nitpick)))
    ∧ (issues.foldl ReviewResult.add_issue {}).total_issues
        = (issues.foldl ReviewResult.add_issue {}).blocking.length
            + (issues.foldl ReviewResult.add_issue {}).warnings.length
            + (issues.foldl ReviewResult.add_issue {}).nitpicks.length
    ∧ (issues.foldl ReviewResult.add_issue {}).total_issues = issues.length
    ∧ ∀ r : ReviewResult, r.has_blocking_issues = true ↔ r.blocking ≠ [] := by
  obtain ⟨hb, hw, hn⟩ := foldl_add_issue_buckets issues {}
  refine ⟨hb, hw, hn, rfl, ?_, has_blocking_iff⟩
  rw [ReviewResult.total_issues, hb, hw, hn]
  simpa using filter_severity_length issues

/-- Claim C1: the tier assigned by _assess_quality_tier is the pure ordered
decision table of the specification applied to the four inputs
(has_blocking, has_tests, coverage_percent, warning_count); in particular
coverage 85 with no warnings, no blocking and tests present is Gold,
coverage 70 with one warning is Silver, coverage 50 is Bronze (needs
testing) even without blocking issues, and any blocking issue forces
Below Bronze regardless of the other inputs. -/
theorem quality_tier_decision_table :
    (∀ (hasTests : Bool) (r : ReviewResult),
        (assessQualityTier hasTests r).quality_tier
          = tierSpec r.has_blocking_issues hasTests r.coverage_percent r.warnings.length)
    ∧ (assessQualityTier true { coverage_percent := 85 }).quality_tier = "Gold"
    ∧ (assessQualityTier true
        { coverage_percent := 70, warnings := [sampleWarningIssue] }).quality_tier
        = "Silver"
    ∧ (assessQualityTier true { coverage_percent := 50 }).quality_tier
        = "Bronze (needs testing)"
    ∧ ∀ (hasTests : Bool) (r : ReviewResult), r.blocking ≠ [] →
        (assessQualityTier hasTests r).quality_tier = "Below Bronze" := by
  refine ⟨?_, by decide, by decide, by decide, ?_⟩
  · intro hasTests r
    unfold assessQualityTier tierSpec
    split_ifs <;> rfl
  · intro hasTests r hr
    unfold assessQualityTier
    rw [if_pos ((has_blocking_iff r).mpr hr)]

/-- Witness for claim C1: a state with one blocking issue and coverage 95 is
tiered Below Bronze. -/
theorem quality_tier_decision_table_witness :
    (assessQualityTier true
        { blocking := [sampleBlockingIssue], coverage_percent := 95 }).quality_tier
      = "Below Bronze" :=
  quality_tier_decision_table.2.2.2.2 true
    { blocking := [sampleBlockingIssue], coverage_percent := 95 } (by simp)

/-- Claim C2: the final else branch of the tier decision is unreachable; no
input state produces the plain tier Bronze, in the embedded code and in
the specification decision table alike. -/
theorem bronze_branch_unreachable (hasTests : Bool) (r : ReviewResult)
    (hb ht : Bool) (cov : Rat) (wc : Nat) :
    (assessQualityTier hasTests r).quality_tier ≠ "Bronze"
    ∧ tierSpec hb ht cov wc ≠ "Bronze" := by
  constructor
  · unfold assessQualityTier
    split_ifs with h1 h2 h3 h4
    · exact show ("Below Bronze" : String) ≠ "Bronze" by decide
    · exact show ("Bronze (needs testing)" : String) ≠ "Bronze" by decide
    · exact show ("Gold" : String) ≠ "Bronze" by decide
    · exact show ("Silver" : String) ≠ "Bronze" by decide
    · exfalso
      simp only [Bool.or_eq_true, decide_eq_true_eq] at h2 h4
      exact h4 (not_lt.mp fun hlt => h2 (Or.inr hlt))
  · unfold tierSpec
    split_ifs with h1 h2 h3 h4
    · exact show ("Below Bronze" : String) ≠ "Bronze" by decide
    · exact show ("Bronze (needs testing)" : String) ≠ "Bronze" by decide
    · exact show ("Gold" : String) ≠ "Bronze" by decide
    · exact show ("Silver" : String) ≠ "Bronze" by decide
    · exfalso
      simp only [Bool.or_eq_true, decide_eq_true_eq] at h2 h4
      exact h4 (not_lt.mp fun hlt => h2 (Or.inr hlt))

/-- Claim C3 as stated is false: the lint, type-check and coverage
subprocess invocations all pass no timeout argument, so none of them is
invoked with a bounded timeout. -/
theorem checker_requests_have_no_timeout :
    (linterRequest ".").timeoutSeconds = none
    ∧ (typeCheckerRequest ".").timeoutSeconds = none
    ∧ (coverageRequest ".").timeoutSeconds = none :=
  ⟨rfl, rfl, rfl⟩

/-- Claim C3 amended: every checker subprocess is invoked without any
timeout bound, so timeout expiry cannot arise; an absent executable is a
non-fatal skip in which no issue of any severity is emitted, only an
out-of-band stderr diagnostic, and each runner returns normally so the
run continues. -/
theorem checker_no_timeout_and_absent_tool_skips (rootPath : String)
    (r : ReviewResult) (cov : Option Rat) :
    (linterRequest rootPath).timeoutSeconds = none
    ∧ (typeCheckerRequest rootPath).timeoutSeconds = none
    ∧ (coverageRequest rootPath).timeoutSeconds = none
    ∧ runLinter RunOutcome.notFound r
        = (r, ["Warning: Ruff not found, skipping lint check"])
    ∧ runTypeChecker RunOutcome.notFound r
        = (r, ["Warning: mypy not found, skipping type check"])
    ∧ checkTestCoverage RunOutcome.notFound cov r
        = (r, ["Warning: Could not check test coverage: executable not found"]) :=
  ⟨rfl, rfl, rfl, rfl, rfl, rfl⟩

/-- Claim C4 as stated is false: with the executable found, exit code 1 and
a stdout in which no line carries the error marker, the type checker
emits no issue at all instead of exactly one warning. -/
theorem type_checker_nonzero_exit_no_issue :
    (runTypeChecker (RunOutcome.completed 1 "") {}).1 = ({} : ReviewResult)
    ∧ (runTypeChecker (RunOutcome.completed 1 "") {}).1.total_issues = 0 :=
  ⟨rfl, rfl⟩

/-- Claim C4 amended: when the type checker executable is found and exits
non-zero, exactly one synthesized warning issue is emitted if and only if
at least one stdout line contains the literal error marker, and that
issue's title carries the count of such lines; when no stdout line
contains the marker, no issue is emitted. -/
theorem type_checker_nonzero_exit (code : Int) (stdout : String)
    (r : ReviewResult) (hc : ¬ code = 0) :
    (0 < errorCount stdout →
        (runTypeChecker (RunOutcome.completed code stdout) r).1.warnings
            = r.warnings ++ [typeCheckIssue (errorCount stdout)]
        ∧ (runTypeChecker (RunOutcome.completed code stdout) r).1.blocking = r.blocking
        ∧ (runTypeChecker (RunOutcome.completed code stdout) r).1.nitpicks = r.nitpicks
        ∧ (runTypeChecker (RunOutcome.completed code stdout) r).1.positives = r.positives
        ∧ (typeCheckIssue (errorCount stdout)).title
            = "Type Check Errors (" ++ toString (errorCount stdout) ++ ")"
        ∧ (typeCheckIssue (errorCount stdout)).severity = Severity.warning)
    ∧ (errorCount stdout = 0 →
        (runTypeChecker (RunOutcome.completed code stdout) r).1 = r) := by
  constructor
  · intro hpos
    rw [runTypeChecker]
    rw [if_neg hc, if_pos hpos]
    refine ⟨?_, ?_, ?_, ?_, rfl, rfl⟩ <;> rfl
  · intro hzero
    rw [runTypeChecker]
    rw [if_neg hc, if_neg (by omega)]

/-- Witness for claim C4 amended: exit code 1 with one error-marker line in
stdout appends exactly the one synthesized warning. -/
theorem type_checker_nonzero_exit_witness :
    (runTypeChecker (RunOutcome.completed 1 "x.py:1: error: bad type")
        ({} : ReviewResult)).1.warnings
      = ({} : ReviewResult).warnings
          ++ [typeCheckIssue (errorCount "x.py:1: error: bad type")] :=
  ((type_checker_nonzero_exit 1 "x.py:1: error: bad type" {} (by decide)).1
    (by decide)).1

/-- Claim C9: whenever the coverage run completes and the machine-readable
summary yields percentage p, that percentage is recorded on the result
regardless of classification, and exactly one of the three outcomes is
emitted: a positive note when p is at least 80, one warning issue of
category testing below target when p is at least 60 and under 80, and one
blocking issue of category testing for insufficient coverage when p is
under 60. -/
theorem coverage_classification (ec : Int) (out : String) (p : Rat)
    (r : ReviewResult) :
    ((checkTestCoverage (RunOutcome.completed ec out) (some p) r).1.coverage_percent = p)
    ∧ (80 ≤ p →
        (checkTestCoverage (RunOutcome.completed ec out) (some p) r).1.positives
            = r.positives ++ [excellentCoverageNote p]
        ∧ (checkTestCoverage (RunOutcome.completed ec out) (some p) r).1.blocking = r.blocking
        ∧ (checkTestCoverage (RunOutcome.completed ec out) (some p) r).1.warnings = r.warnings
        ∧ (checkTestCoverage (RunOutcome.completed ec out) (some p) r).1.nitpicks = r.nitpicks)
    ∧ (60 ≤ p → p < 80 →
        (checkTestCoverage (RunOutcome.completed ec out) (some p) r).1.warnings
            = r.warnings ++ [belowTargetIssue p]
        ∧ (belowTargetIssue p).severity = Severity.warning
        ∧ (belowTargetIssue p).category = Category.testing
        ∧ (checkTestCoverage (RunOutcome.completed ec out) (some p) r).1.blocking = r.blocking
        ∧ (checkTestCoverage (RunOutcome.completed ec out) (some p) r).1.positives = r.positives
        ∧ (checkTestCoverage (RunOutcome.completed ec out) (some p) r).1.nitpicks = r.nitpicks)
    ∧ (p < 60 →
        (checkTestCoverage (RunOutcome.completed ec out) (some p) r).1.blocking
            = r.blocking ++ [insufficientCoverageIssue p]
        ∧ (insufficientCoverageIssue p).severity = Severity.blocking
        ∧ (insufficientCoverageIssue p).category = Category.testing
        ∧ (checkTestCoverage (RunOutcome.completed ec out) (some p) r).1.warnings = r.warnings
        ∧ (checkTestCoverage (RunOutcome.completed ec out) (some p) r).1.positives = r.positives
        ∧ (checkTestCoverage (RunOutcome.completed ec out) (some p) r).1.nitpicks = r.nitpicks) := by
  refine ⟨?_, ?_, ?_, ?_⟩
  · rw [checkTestCoverage]
    split_ifs <;> rfl
  · intro h80
    rw [checkTestCoverage, if_pos h80]
    exact ⟨rfl, rfl, rfl, rfl⟩
  · intro h60 hlt
    have hn80 : ¬ 80 ≤ p := not_le.mpr hlt
    rw [checkTestCoverage, if_neg hn80, if_pos h60]
    exact ⟨rfl, rfl, rfl, rfl, rfl, rfl⟩
  · intro hlt
    have hn80 : ¬ 80 ≤ p := not_le.mpr (lt_of_lt_of_le hlt (by norm_num))
    have hn60 : ¬ 60 ≤ p := not_le.mpr hlt
    rw [checkTestCoverage, if_neg hn80, if_neg hn60]
    exact ⟨rfl, rfl, rfl, rfl, rfl, rfl⟩

/-- Witness for claim C9: a completed run with an 85 percent summary records
85 and adds exactly the excellent-coverage positive note. -/
theorem coverage_classification_witness :
    (checkTestCoverage (RunOutcome.completed 0 "") (some 85)
        ({} : ReviewResult)).1.coverage_percent = 85
    ∧ (checkTestCoverage (RunOutcome.completed 0 "") (some 85)
        ({} : ReviewResult)).1.positives
      = ({} : ReviewResult).positives ++ [excellentCoverageNote 85] := by
  have h := coverage_classification 0 "" 85 ({} : ReviewResult)
  exact ⟨h.1, (h.2.1 (by norm_num)).1⟩

/-- Claim C10: when the coverage phase completes but the machine-readable
summary file is absent, the result is returned unchanged with no
diagnostic, so coverage_percent keeps its prior value and no issue or
positive note is emitted; a state with initial coverage zero and no
blocking issues is then tiered Bronze (needs testing) whatever the tests
directory says. -/
theorem coverage_file_missing (ec : Int) (out : String) (r : ReviewResult)
    (hasTests : Bool) (hcov : r.coverage_percent = 0) (hblock : r.blocking = []) :
    checkTestCoverage (RunOutcome.completed ec out) none r = (r, [])
    ∧ (assessQualityTier hasTests
          (checkTestCoverage (RunOutcome.completed ec out) none r).1).quality_tier
        = "Bronze (needs testing)" := by
  refine ⟨rfl, ?_⟩
  show (assessQualityTier hasTests r).quality_tier = _
  rw [assessQualityTier]
  rw [if_neg (by simp [ReviewResult.has_blocking_issues, hblock]),
      if_pos (by simp [hcov])]

/-- Witness for claim C10: the fresh result with a completed pytest run and
no coverage file stays unchanged and is tiered Bronze (needs testing). -/
theorem coverage_file_missing_witness :
    checkTestCoverage (RunOutcome.completed 0 "") none ({} : ReviewResult)
        = (({} : ReviewResult), [])
    ∧ (assessQualityTier true
          (checkTestCoverage (RunOutcome.completed 0 "") none ({} : ReviewResult)).1).quality_tier
        = "Bronze (needs testing)" :=
  coverage_file_missing 0 "" {} true rfl rfl

theorem credIssuesAux_line_ge (file : String) (l : List String) (j : Nat)
    (i : Issue) (h : i ∈ credIssuesAux file j l) :
    ∃ m, i.line = some m ∧ j ≤ m := by
  induction l generalizing j with
  | nil => simp [credIssuesAux] at h
  | cons s t ih =>
    rw [credIssuesAux] at h
    rcases List.mem_append.mp h with h1 | h2
    · split at h1
      · have hi : i = credIssue file j := List.mem_singleton.mp h1
        subst hi
        exact ⟨j, rfl, Nat.le_refl j⟩
      · exact absurd h1 (List.not_mem_nil i)
    · obtain ⟨m, hm, hjm⟩ := ih (j + 1) h2
      exact ⟨m, hm, by omega⟩

theorem credIssuesAux_filter (file : String) (l : List String) (j n : Nat)
    (lineText : String) (h : l.get? n = some lineText) :
    (credIssuesAux file j l).filter (fun i => decide (i.line = some (j + n)))
      = if hardcodedKeyMatch lineText && !testInPath file && !isCommentLine lineText
        then [credIssue file (j + n)] else [] := by
  induction l generalizing j n with
  | nil => simp at h
  | cons s t ih =>
    cases n with
    | zero =>
      have hs : s = lineText := by simpa using h
      subst hs
      rw [credIssuesAux, List.filter_append]
      have htail : (credIssuesAux file (j + 1) t).filter
          (fun i => decide (i.line = some (j + 0))) = [] := by
        rw [List.filter_eq_nil_iff]
        intro i hi
        obtain ⟨m, hm, hjm⟩ := credIssuesAux_line_ge file t (j + 1) i hi
        simp [hm]
        omega
      rw [htail]
      cases hc : hardcodedKeyMatch s && !testInPath file && !isCommentLine s with
      | false => simp [hc]
      | true => simp [hc, credIssue]
    | succ n' =>
      rw [credIssuesAux, List.filter_append]
      have hhead : ((if hardcodedKeyMatch s && !testInPath file && !isCommentLine s
          then [credIssue file j] else []).filter
          (fun i => decide (i.line = some (j + (n' + 1))))) = [] := by
        split
        · simp [credIssue]
        · simp
      rw [hhead, List.nil_append]
      have hrec := ih (j + 1) n' (by simpa using h)
      rw [show j + (n' + 1) = (j + 1) + n' from by omega]
      exact hrec

/-- Claim C6: in an artifact, a line that matches the hardcoded-credential
pattern, in a path without the test marker and not starting with the
comment marker, yields exactly one issue of this rule at that line
number, and that issue is blocking, of category security, and carries the
one-based line number; when the line is a comment or the path carries the
test marker, the rule yields zero issues for that line. -/
theorem hardcoded_credential_rule (file lineText : String) (lines : List String)
    (n : Nat) (h : lines.get? n = some lineText) :
    ((checkHardcodedCredentials file lines).filter
        (fun i => decide (i.line = some (n + 1)))
      = if hardcodedKeyMatch lineText && !testInPath file && !isCommentLine lineText
        then [credIssue file (n + 1)] else [])
    ∧ (credIssue file (n + 1)).severity = Severity.blocking
    ∧ (credIssue file (n + 1)).category = Category.security
    ∧ (credIssue file (n + 1)).line = some (n + 1) := by
  refine ⟨?_, rfl, rfl, rfl⟩
  have hmain := credIssuesAux_filter file lines 1 n lineText h
  rw [Nat.add_comm 1 n] at hmain
  exact hmain

/-- Witness for claim C6: the specification test vector in a non-test path
satisfies all three guards of the rule, so the rule yields exactly the
one blocking security issue on line one. -/
theorem hardcoded_credential_rule_witness :
    (hardcodedKeyMatch sampleCredLine
        && !testInPath "custom_components/demo/api.py"
        && !isCommentLine sampleCredLine) = true
    ∧ ((checkHardcodedCredentials "custom_components/demo/api.py"
          [sampleCredLine]).filter (fun i => decide (i.line = some (0 + 1)))
        = if hardcodedKeyMatch sampleCredLine
              && !testInPath "custom_components/demo/api.py"
              && !isCommentLine sampleCredLine
          then [credIssue "custom_components/demo/api.py" (0 + 1)] else []) :=
  ⟨by decide,
   (hardcoded_credential_rule "custom_components/demo/api.py" sampleCredLine
      [sampleCredLine] 0 rfl).1⟩

/-- Claim C7: when parsing fails, the ast phase of _review_python_file
yields exactly one issue, blocking and of category quality, carrying the
parser's reported line number and message; it contains no warning at all,
and every issue of the structural checker is a warning, so the structural
checks contribute zero issues for such an artifact. -/
theorem parse_failure_single_blocking_issue (file : String) (e : SyntaxErr) :
    astPhase file (Except.error e) = [syntaxErrorIssue file e]
    ∧ (syntaxErrorIssue file e).severity = Severity.blocking
    ∧ (syntaxErrorIssue file e).category = Category.quality
    ∧ (syntaxErrorIssue file e).line = e.lineno
    ∧ (syntaxErrorIssue file e).description = "Python syntax error: " ++ e.msg
    ∧ ((astPhase file (Except.error e)).filter
        (fun i => decide (i.severity = Severity.warning)) = [])
    ∧ ∀ (tree : List PyNode) (i : Issue),
        i ∈ checkAstPatterns file tree → i.severity = Severity.warning := by
  refine ⟨rfl, rfl, rfl, rfl, rfl, rfl, ?_⟩
  intro tree i hi
  rw [checkAstPatterns] at hi
  rcases List.mem_flatMap.mp hi with ⟨node, hnode, hin⟩
  cases node with
  | functionDef nm returns lineno =>
    rw [astNodeIssues] at hin
    split at hin
    · have hi2 := List.mem_singleton.mp hin
      subst hi2
      rfl
    · exact absurd hin (List.not_mem_nil i)
  | exceptHandler typ lineno =>
    rw [astNodeIssues] at hin
    split at hin
    · have hi2 := List.mem_singleton.mp hin
      subst hi2
      rfl
    · exact absurd hin (List.not_mem_nil i)
  | otherNode =>
    rw [astNodeIssues] at hin
    exact absurd hin (List.not_mem_nil i)

/-- Witness for claim C7: a concrete syntax error at line 3 yields exactly
the one blocking issue, and a concrete structural issue produced from a
parsed tree is a warning. -/
theorem parse_failure_single_blocking_issue_witness :
    astPhase "custom_components/demo/api.py"
        (Except.error { lineno := some 3, msg := "invalid syntax" })
      = [syntaxErrorIssue "custom_components/demo/api.py"
          { lineno := some 3, msg := "invalid syntax" }]
    ∧ Issue.severity
        { severity := Severity.warning, category := Category.quality,
          file := "custom_components/demo/api.py", line := some 1,
          title := "Missing Return Type Hint",
          description := "Function " ++ sglq ++ "setup" ++ sglq
            ++ " has no return type hint",
          suggestion := some "Add type hints to all public functions" }
      = Severity.warning := by
  have h := parse_failure_single_blocking_issue "custom_components/demo/api.py"
    { lineno := some 3, msg := "invalid syntax" }
  exact ⟨h.1, h.2.2.2.2.2.2 [PyNode.functionDef "setup" none 1] _ (by decide)⟩

theorem foldl_missingFieldStep (m : List (String × JsonVal)) (file : String)
    (fields : List String) (r : ReviewResult) :
    ((fields.foldl (missingFieldStep m file) r).blocking
        = r.blocking
          ++ (fields.filter fun f => (lookupField m f).isNone).map
               (missingFieldIssue file))
    ∧ (fields.foldl (missingFieldStep m file) r).warnings = r.warnings
    ∧ (fields.foldl (missingFieldStep m file) r).nitpicks = r.nitpicks
    ∧ (fields.foldl (missingFieldStep m file) r).positives = r.positives := by
  induction fields generalizing r with
  | nil => simp
  | cons f t ih =>
    obtain ⟨hb, hw, hn, hp⟩ := ih (missingFieldStep m file r f)
    by_cases hf : (lookupField m f).isNone
    · have step : missingFieldStep m file r f
          = { r with blocking := r.blocking ++ [missingFieldIssue file f] } := by
        rw [missingFieldStep, if_pos hf]
        rfl
      rw [step] at hb hw hn hp
      refine ⟨?_, ?_, ?_, ?_⟩ <;>
        simp [List.foldl_cons, step, hb, hw, hn, hp, List.filter_cons, hf]
    · have step : missingFieldStep m file r f = r := by
        rw [missingFieldStep, if_neg hf]
      rw [step] at hb hw hn hp
      refine ⟨?_, ?_, ?_, ?_⟩ <;>
        simp [List.foldl_cons, step, hb, hw, hn, hp, List.filter_cons, hf]

/-- Claim C8: on decode failure _review_manifest emits exactly one blocking
issue carrying the decoder message and runs no field check; on success it
emits one blocking issue naming each required field absent from the
document, in order, plus one pattern-category warning exactly when the
config_flow flag is not truthy, which covers the flag being absent or the
boolean false. -/
theorem review_manifest_characterization (file : String) (r : ReviewResult) :
    (∀ msg, reviewManifest file (Except.error msg) r
        = { r with blocking := r.blocking ++ [invalidManifestIssue file msg] }
      ∧ (invalidManifestIssue file msg).severity = Severity.blocking
      ∧ (invalidManifestIssue file msg).description
          = "manifest.json has invalid JSON: " ++ msg)
    ∧ ∀ m : List (String × JsonVal),
        ((reviewManifest file (Except.ok m) r).blocking
            = r.blocking
              ++ (requiredFields.filter fun f => (lookupField m f).isNone).map
                   (missingFieldIssue file))
        ∧ ((reviewManifest file (Except.ok m) r).warnings
            = r.warnings
              ++ if configFlowTruthy m then [] else [configFlowIssue file])
        ∧ (reviewManifest file (Except.ok m) r).nitpicks = r.nitpicks
        ∧ (reviewManifest file (Except.ok m) r).positives = r.positives
        ∧ (∀ f, (missingFieldIssue file f).severity = Severity.blocking
            ∧ (missingFieldIssue file f).title = "Missing Required Field: " ++ f)
        ∧ (configFlowIssue file).severity = Severity.warning
        ∧ (configFlowIssue file).category = Category.pattern
        ∧ (lookupField m "config_flow" = none → configFlowTruthy m = false)
        ∧ (lookupField m "config_flow" = some (JsonVal.bool false)
            → configFlowTruthy m = false)
        ∧ (lookupField m "config_flow" = some (JsonVal.bool true)
            → configFlowTruthy m = true) := by
  constructor
  · intro msg
    exact ⟨rfl, rfl, rfl⟩
  · intro m
    obtain ⟨hb, hw, hn, hp⟩ := foldl_missingFieldStep m file requiredFields r
    by_cases hcf : configFlowTruthy m
    · refine ⟨?_, ?_, ?_, ?_, fun f => ⟨rfl, rfl⟩, rfl, rfl, ?_, ?_, ?_⟩
      · simpa [reviewManifest, hcf] using hb
      · simp [reviewManifest, hcf, hw]
      · simpa [reviewManifest, hcf] using hn
      · simpa [reviewManifest, hcf] using hp
      · intro hnone; simp [configFlowTruthy, hnone]
      · intro hfalse; simp [configFlowTruthy, hfalse, truthy]
      · intro htrue; simp [configFlowTruthy, htrue, truthy]
    · refine ⟨?_, ?_, ?_, ?_, fun f => ⟨rfl, rfl⟩, rfl, rfl, ?_, ?_, ?_⟩
      · simpa [reviewManifest, hcf, ReviewResult.add_issue, configFlowIssue] using hb
      · simp [reviewManifest, hcf, ReviewResult.add_issue, configFlowIssue, hw]
      · simpa [reviewManifest, hcf, ReviewResult.add_issue, configFlowIssue] using hn
      · simpa [reviewManifest, hcf, ReviewResult.add_issue, configFlowIssue] using hp
      · intro hnone; simp [configFlowTruthy, hnone]
      · intro hfalse; simp [configFlowTruthy, hfalse, truthy]
      · intro htrue; simp [configFlowTruthy, htrue, truthy]

/-- Witness for claim C8: a manifest missing exactly the version and
integration_type fields, with no config_flow key, gets exactly two
blocking issues and counts as a non-truthy config_flow. -/
theorem review_manifest_characterization_witness :
    ((reviewManifest "manifest.json" (Except.ok demoManifest)
        ({} : ReviewResult)).blocking
      = ({} : ReviewResult).blocking
          ++ (requiredFields.filter fun f => (lookupField demoManifest f).isNone).map
               (missingFieldIssue "manifest.json"))
    ∧ configFlowTruthy demoManifest = false
    ∧ (reviewManifest "manifest.json" (Except.ok demoManifest)
        ({} : ReviewResult)).blocking.length = 2 := by
  have h := review_manifest_characterization "manifest.json" ({} : ReviewResult)
  have h2 := h.2 demoManifest
  refine ⟨h2.1, h2.2.2.2.2.2.2.2.1 rfl, ?_⟩
  rw [h2.1]
  rfl
